import Mathlib

/-!
Shallow embedding of `src/corecomposition/__main__.py`.

Tabular data (astropy tables) is modelled as lists of rows, a row being an
association list from column names to integer-modelled numeric payloads
(the claims only move cell values around, compare them and add or subtract
them, so exact integers stand in for the floats).  External
collaborators (the catalog builder, the radius measurement routine, the
spectromancer RV fitter, WD_models, corv, table file I/O) are an `Env`
record of fallible functions; the script itself only sequences their calls,
joins tables and derives columns, which is embedded exactly.  Python
exceptions are the `Except PyError` monad; attribute access on the argparse
namespace is `getattr`, which raises `AttributeError` on a missing
attribute, exactly as Python does.
-/

/-- A Python exception, as far as the script can raise or propagate one. -/
inductive PyError where
  | attributeError (name : String)
  | keyError (name : String)
  | ioError (msg : String)
deriving DecidableEq

/-- A row of an astropy table: column name to value. -/
abbrev Row := List (String × ℤ)

/-- An astropy table: a list of rows. -/
abbrev Table := List Row

/-- Column access inside one row (`row['c']`): first binding wins. -/
def getCol : Row → String → Option ℤ
  | [], _ => none
  | p :: ps, c => if p.1 = c then some p.2 else getCol ps c

/-- Column assignment inside one row (`row['c'] = v`). -/
def setCol (r : Row) (c : String) (v : ℤ) : Row :=
  (c, v) :: r.filter (fun p => p.1 != c)

/-- Whether a left row and a right row agree on the join keys: both carry the
key column and the values are equal (rows lacking the key match nothing). -/
def rowsMatch (l r : Row) (kl kr : String) : Bool :=
  match getCol l kl, getCol r kr with
  | some a, some b => a == b
  | _, _ => false

/-- `astropy.table.join(left, right, keys_left=kl, keys_right=kr)`: the inner
join, one output row for every key-matching pair, left columns first. -/
def joinTables : Table → Table → String → String → Table
  | [], _, _, _ => []
  | l :: ls, right, kl, kr =>
      (right.filter (fun r => rowsMatch l r kl kr)).map (fun r => l ++ r)
        ++ joinTables ls right kl kr

/-- Insert one row into a run of rows sorted by column `c` (missing values
sort as 0). -/
def insertRow (c : String) (r : Row) : Table → Table
  | [] => [r]
  | x :: xs =>
      if (getCol r c).getD 0 ≤ (getCol x c).getD 0 then r :: x :: xs
      else x :: insertRow c r xs

/-- `table.sort(['c'])`: stable-enough insertion sort by column `c`. -/
def sortByCol (t : Table) (c : String) : Table :=
  t.foldr (insertRow c) []

/-- Derive a new column from two existing ones, as astropy column arithmetic
`t[newc] = op(t[c1], t[c2])` does; a missing operand column raises KeyError. -/
def addOpCol (t : Table) (c1 c2 newc : String) (op : ℤ → ℤ → ℤ) :
    Except PyError Table :=
  if t.all (fun r => (getCol r c1).isSome && (getCol r c2).isSome) then
    .ok (t.map (fun r => setCol r newc (op ((getCol r c1).getD 0) ((getCol r c2).getD 0))))
  else .error (.keyError newc)

/-- The value of one attribute of the argparse namespace. -/
inductive AttrVal where
  | pyNone
  | str (s : String)
  | bool (b : Bool)
deriving DecidableEq

/-- The argparse namespace: attribute name to value. -/
abbrev Namespace := List (String × AttrVal)

/-- Python attribute access `args.a`: AttributeError when undefined. -/
def getattr : Namespace → String → Except PyError AttrVal
  | [], a => .error (.attributeError a)
  | p :: ps, a => if p.1 = a then .ok p.2 else getattr ps a

/-- One key/value section of the INI config. -/
abbrev ConfigSection := List (String × String)

/-- The parsed INI config file. -/
abbrev Config := List (String × ConfigSection)

/-- `config['s']` on a configparser: KeyError when the section is missing. -/
def getSection : Config → String → Except PyError ConfigSection
  | [], s => .error (.keyError s)
  | p :: ps, s => if p.1 = s then .ok p.2 else getSection ps s

/-- A WD_models model grid, as the two model functions consume it. -/
structure ModelGrid where
  logg : List ℚ
  mass_array : List ℚ
  logteff : List ℚ

/-- Opaque handle for the corv warwick DA model: the line names passed. -/
abbrev CorvModel := List String

/-- `corv.models.make_warwick_da_model(names=...)` (external collaborator,
kept opaque: the handle records the names). -/
def make_warwick_da_model (names : List String) : CorvModel := names

/-- The external collaborators the script delegates to.  Fallible ones
return `Except PyError`; the numeric kernel (powers of ten, square root,
the 2-d interpolator) is kept abstract. -/
structure Env where
  build_catalog : ConfigSection → Namespace → Except PyError (Table × Table)
  measure_radius : Table → ConfigSection → Namespace → Except PyError (Table × List String)
  fit_rvs : AttrVal → CorvModel → AttrVal → Except PyError Table
  read_table : AttrVal → Except PyError Table
  write_table : AttrVal → Table → Except PyError Unit
  load_model : String → String → String → String → List String → ModelGrid
  interp_xy_z : List ℚ → List ℚ → List ℚ → String → (List ℚ → List ℚ → List ℚ)
  pow10 : ℚ → ℚ
  sqrtQ : ℚ → ℚ

/-- `radius_sun = 6.957e8`. -/
def radius_sun : ℚ := 6957 * 10 ^ 5

/-- `mass_sun = 1.9884e30`. -/
def mass_sun : ℚ := 19884 * 10 ^ 26

/-- `newton_G = 6.674e-11`. -/
def newton_G : ℚ := 6674 / 10 ^ 14

/-- `pc_to_m = 3.086775e16`. -/
def pc_to_m : ℚ := 3086775 * 10 ^ 10

/-- `speed_light = 299792458`. -/
def speed_light : ℚ := 299792458

/-- `one_model(radarray, teffarray, lowmass='f', midmass='f', highmass='f')`:
loads the O/Ne grid (`load_model('ft','ft','o',...)`), derives radii from the
grid mass and log-g arrays, interpolates (radius, Teff) to mass, and returns
G*mass/(c*radius) in km/s.  The lowmass/midmass/highmass parameters (default
'f' in the source) are declared and never read, as in the source. -/
def one_model (env : Env) (radarray teffarray : List ℚ)
    (lowmass midmass highmass : String) : List ℚ :=
  let ONe_model := env.load_model "ft" "ft" "o" "H" ["bp3-rp3", "G3"]
  let g_acc := ONe_model.logg.map (fun x => env.pow10 x / 100)
  let rsun := (ONe_model.mass_array.zip g_acc).map
    (fun p => env.sqrtQ (p.1 * mass_sun * newton_G / p.2) / radius_sun)
  let rsun_teff_to_m :=
    env.interp_xy_z rsun (ONe_model.logteff.map env.pow10) ONe_model.mass_array "linear"
  let mass := (rsun_teff_to_m radarray teffarray).map (fun m => m * mass_sun)
  let radius := radarray.map (fun r => r * radius_sun)
  let rv := (mass.zip radius).map (fun p => newton_G * p.1 / (speed_light * p.2))
  rv.map (fun x => x * (1 / 1000))

/-- `co_model(radarray, teffarray, lowmass='f', midmass='f', highmass='f')`:
identical to `one_model` except that the third argument of the model loader
is 'ft' (the C/O grid) instead of 'o'. -/
def co_model (env : Env) (radarray teffarray : List ℚ)
    (lowmass midmass highmass : String) : List ℚ :=
  let CO_model := env.load_model "ft" "ft" "ft" "H" ["bp3-rp3", "G3"]
  let g_acc := CO_model.logg.map (fun x => env.pow10 x / 100)
  let rsun := (CO_model.mass_array.zip g_acc).map
    (fun p => env.sqrtQ (p.1 * mass_sun * newton_G / p.2) / radius_sun)
  let rsun_teff_to_m :=
    env.interp_xy_z rsun (CO_model.logteff.map env.pow10) CO_model.mass_array "linear"
  let mass := (rsun_teff_to_m radarray teffarray).map (fun m => m * mass_sun)
  let radius := radarray.map (fun r => r * radius_sun)
  let rv := (mass.zip radius).map (fun p => newton_G * p.1 / (speed_light * p.2))
  rv.map (fun x => x * (1 / 1000))

/-- What `build` produces: the catalog, the (sorted) joined targets table,
the engine keys, and the file writes it performed. -/
structure BuildResult where
  catalog : Table
  targets : Table
  engine_keys : List String
  writes : List (AttrVal × Table)
deriving DecidableEq

/-- `build(config, args)`: reads the `[catalog]` and `[radius]` config
sections, chains the catalog builder and the radius measurement, joins
catalog and radii on `wd_source_id`/`source_id`, sorts by
`wd_phot_g_mean_mag` and writes the result to `args.catfile`. -/
def build (env : Env) (config : Config) (args : Namespace) :
    Except PyError BuildResult := do
  let catalog_params ← getSection config "catalog"
  let radius_params ← getSection config "radius"
  let bc ← env.build_catalog catalog_params args
  let mr ← env.measure_radius bc.2 radius_params args
  let targets := joinTables bc.1 mr.1 "wd_source_id" "source_id"
  let sorted := sortByCol targets "wd_phot_g_mean_mag"
  let catfile ← getattr args "catfile"
  let _ ← env.write_table catfile sorted
  pure ⟨bc.1, sorted, mr.2, [(catfile, sorted)]⟩

/-- The row mask `observation.table['rv_spread'] < 1` applied row-wise. -/
def rvSpreadLt1 (r : Row) : Bool :=
  match getCol r "rv_spread" with
  | some v => decide (v < 1)
  | none => false

/-- What `analyze` produces: the joined output table, the filtered RV table,
and the file writes it performed. -/
structure AnalyzeResult where
  outfile : Table
  rv_table : Table
  writes : List (AttrVal × Table)
deriving DecidableEq

/-- `if args.rv_path is not None: rv_table.write(args.rv_path, overwrite=True)`:
the optional RV-table write of `analyze`, returning the writes performed. -/
def writeIfGiven (env : Env) (path : AttrVal) (t : Table) :
    Except PyError (List (AttrVal × Table)) :=
  if path = AttrVal.pyNone then pure []
  else do
    let _ ← env.write_table path t
    pure [(path, t)]

/-- `analyze(targets, config, args)`: fits WD RVs on the observation file at
`args.obspath`, keeps the rows with `rv_spread < 1`, optionally writes them to
`args.rv_path`, joins with `targets` on `source_id`, derives
`gravz = rv - ms_rv` and `e_gravz = e_rv + ms_erv`, and writes the joined
table to `args.outfile`. -/
def analyze (env : Env) (targets : Table) (config : Config) (args : Namespace) :
    Except PyError AnalyzeResult := do
  let model := make_warwick_da_model ["a", "b", "g", "d"]
  let obspath ← getattr args "obspath"
  let verbose ← getattr args "verbose"
  let obsTable ← env.fit_rvs obspath model verbose
  let rv_table := obsTable.filter rvSpreadLt1
  let rv_path ← getattr args "rv_path"
  let rvWrites ← writeIfGiven env rv_path rv_table
  let joined := joinTables targets rv_table "source_id" "source_id"
  let withGravz ← addOpCol joined "rv" "ms_rv" "gravz" (fun a b => a - b)
  let outTable ← addOpCol withGravz "e_rv" "ms_erv" "e_gravz" (fun a b => a + b)
  let outAttr ← getattr args "outfile"
  let _ ← env.write_table outAttr outTable
  pure ⟨outTable, rv_table, rvWrites ++ [(outAttr, outTable)]⟩

/-- One `parser.add_argument(...)` call: the name strings given, whether the
action is `store_true`, and the default value. -/
structure ArgAction where
  names : List String
  storeTrue : Bool
  dflt : AttrVal

/-- Whether a name string is a long option (starts with `--`). -/
def isLongOpt (s : String) : Bool :=
  match s.data with
  | '-' :: '-' :: _ => true
  | _ => false

/-- Replace dashes by underscores, as argparse does when deriving `dest`. -/
def dashToUnderscore (s : String) : String :=
  String.mk (s.data.map (fun c => if c = '-' then '_' else c))

/-- Drop the first `n` characters of a string. -/
def dropChars (n : Nat) (s : String) : String :=
  String.mk (s.data.drop n)

/-- argparse's `dest` for an action: a positional keeps its name; an optional
takes the first long option with the leading `--` stripped, else the short
option with the leading `-` stripped; dashes become underscores. -/
def destOf (names : List String) : String :=
  let base :=
    match names.filter isLongOpt with
    | l :: _ => dropChars 2 l
    | [] =>
      match names with
      | n :: _ => if isLongOpt n then dropChars 2 n
                  else match n.data with
                       | '-' :: _ => dropChars 1 n
                       | _ => n
      | [] => ""
  dashToUnderscore base

/-- The eleven `add_argument` calls of the script's parser, in order. -/
def parserActions : List ArgAction :=
  [ ⟨["mode"], false, .str "build"⟩,
    ⟨["path"], false, .pyNone⟩,
    ⟨["config"], false, .str "config.ini"⟩,
    ⟨["outfile"], false, .pyNone⟩,
    ⟨["--obspath"], false, .pyNone⟩,
    ⟨["-v", "--verbose"], true, .bool false⟩,
    ⟨["--highmass-path"], false, .pyNone⟩,
    ⟨["--radius-path"], false, .pyNone⟩,
    ⟨["--rv-path"], false, .pyNone⟩,
    ⟨["--deredden"], true, .bool false⟩,
    ⟨["--plot-radii"], true, .bool false⟩ ]

/-- The attribute names the parser defines on the parsed namespace. -/
def parserDests : List String :=
  parserActions.map (fun a => destOf a.names)

/-- A namespace the parser can produce: exactly the parser's `dest`
attributes are set, to whatever values `vals` the command line yielded. -/
def parsedNamespace (vals : String → AttrVal) : Namespace :=
  parserActions.map (fun a => (destOf a.names, vals (destOf a.names)))

/-- The namespace `parse_args` returns when every argument takes its
default. -/
def defaultNamespace : Namespace :=
  parserActions.map (fun a => (destOf a.names, a.dflt))

/-- The body of the `if args.mode == 'analyze':` branch of the entry point:
`targets = Table.read(args.obs_path)` then `analyze(targets, config, args)`. -/
def analyzeBranch (env : Env) (config : Config) (args : Namespace) :
    Except PyError Unit := do
  let obs ← getattr args "obs_path"
  let targets ← env.read_table obs
  let _ ← analyze env targets config args
  pure ()

/-- The `__main__` dispatch after argument and config parsing: run `build`
when `args.mode == 'build'`, then run the analyze branch when
`args.mode == 'analyze'` (plotting diagnostics are external and elided). -/
def mainRun (env : Env) (config : Config) (args : Namespace) :
    Except PyError Unit := do
  let mode ← getattr args "mode"
  let _ ←
    if mode = AttrVal.str "build" then (build env config args).map (fun _ => ())
    else pure ()
  if mode = AttrVal.str "analyze" then analyzeBranch env config args
  else pure ()

/-- Two rows do not share a defined value of the key column `k`. -/
def keyDistinctB (k : String) (r1 r2 : Row) : Bool :=
  match getCol r1 k, getCol r2 k with
  | some a, some b => a != b
  | _, _ => true

/-- The expected (unenforced) join precondition: the values of the key
column are unique within the table. -/
@[reducible] def keysUnique (t : Table) (k : String) : Prop :=
  t.Pairwise (fun r1 r2 => keyDistinctB k r1 r2 = true)

theorem rowsMatch_eq {l r : Row} {kl kr : String}
    (h : rowsMatch l r kl kr = true) :
    ∃ a, getCol l kl = some a ∧ getCol r kr = some a := by
  unfold rowsMatch at h
  cases hl : getCol l kl with
  | none => rw [hl] at h; simp at h
  | some a =>
    cases hr : getCol r kr with
    | none => rw [hl, hr] at h; simp at h
    | some b =>
      rw [hl, hr] at h
      simp only [beq_iff_eq] at h
      exact ⟨b, by rw [h], rfl⟩

theorem keyDistinctB_not_shared {k : String} {r1 r2 : Row} {a : ℤ}
    (h : keyDistinctB k r1 r2 = true)
    (h1 : getCol r1 k = some a) (h2 : getCol r2 k = some a) : False := by
  unfold keyDistinctB at h
  rw [h1, h2] at h
  simp at h

theorem filter_rowsMatch_length_le_one (l : Row) (kl kr : String) :
    ∀ right : Table, keysUnique right kr →
      (right.filter (fun r => rowsMatch l r kl kr)).length ≤ 1 := by
  intro right
  induction right with
  | nil => intro _; simp
  | cons x xs ih =>
    intro h
    rw [keysUnique, List.pairwise_cons] at h
    obtain ⟨hx, hxs⟩ := h
    by_cases hm : rowsMatch l x kl kr = true
    · rw [List.filter_cons, if_pos hm]
      have hnil : xs.filter (fun r => rowsMatch l r kl kr) = [] := by
        rw [List.filter_eq_nil_iff]
        intro r' hr' hmr'
        obtain ⟨a, hla, hxa⟩ := rowsMatch_eq hm
        obtain ⟨a', hla', hra'⟩ := rowsMatch_eq hmr'
        rw [hla] at hla'
        cases hla'
        exact keyDistinctB_not_shared (hx r' hr') hxa hra'
      rw [hnil]
      simp
    · rw [List.filter_cons, if_neg hm]
      exact ih hxs

theorem countP_rowsMatch_le_one (r : Row) (kl kr : String) :
    ∀ left : Table, keysUnique left kl →
      (left.countP (fun l => rowsMatch l r kl kr)) ≤ 1 := by
  intro left
  induction left with
  | nil => intro _; simp
  | cons x xs ih =>
    intro h
    rw [keysUnique, List.pairwise_cons] at h
    obtain ⟨hx, hxs⟩ := h
    rw [List.countP_cons]
    by_cases hm : rowsMatch x r kl kr = true
    · rw [if_pos hm]
      have hz : xs.countP (fun l => rowsMatch l r kl kr) = 0 := by
        rw [List.countP_eq_zero]
        intro l' hl' hml'
        obtain ⟨a, hxa, hra⟩ := rowsMatch_eq hm
        obtain ⟨a', hla', hra'⟩ := rowsMatch_eq hml'
        rw [hra] at hra'
        cases hra'
        exact keyDistinctB_not_shared (hx l' hl') hxa hla'
      omega
    · rw [if_neg hm]
      have := ih hxs
      omega

theorem joinTables_nil_right (left : Table) (kl kr : String) :
    joinTables left [] kl kr = [] := by
  induction left with
  | nil => rfl
  | cons l ls ih => simp [joinTables, ih]

theorem joinTables_length_le_left (right : Table) (kl kr : String)
    (h : keysUnique right kr) :
    ∀ left : Table, (joinTables left right kl kr).length ≤ left.length := by
  intro left
  induction left with
  | nil => simp [joinTables]
  | cons l ls ih =>
    have hf := filter_rowsMatch_length_le_one l kl kr right h
    simp only [joinTables, List.length_append, List.length_map, List.length_cons]
    omega

theorem joinTables_cons_right (r : Row) (rs : Table) (kl kr : String) :
    ∀ left : Table,
      (joinTables left (r :: rs) kl kr).length =
        left.countP (fun l => rowsMatch l r kl kr)
          + (joinTables left rs kl kr).length := by
  intro left
  induction left with
  | nil => simp [joinTables]
  | cons l ls ih =>
    simp only [joinTables, List.length_append, List.length_map,
      List.filter_cons, List.countP_cons, ih]
    by_cases hm : rowsMatch l r kl kr = true
    · rw [if_pos hm, if_pos hm]
      simp only [List.length_cons]
      omega
    · rw [if_neg hm, if_neg hm]
      omega

theorem joinTables_length_le_right (left : Table) (kl kr : String)
    (h : keysUnique left kl) :
    ∀ right : Table, (joinTables left right kl kr).length ≤ right.length := by
  intro right
  induction right with
  | nil => simp [joinTables_nil_right]
  | cons r rs ih =>
    have hc := countP_rowsMatch_le_one r kl kr left h
    rw [joinTables_cons_right]
    simp only [List.length_cons]
    omega

/-- C5: for the inner join the program performs (build joins catalog and
radii on `wd_source_id`/`source_id`, analyze joins targets and the RV table
on `source_id`), if the join-key values are unique within each input table
then the output has at most `min` of the input row counts. -/
theorem joinTables_length_le_min (left right : Table) (kl kr : String)
    (hl : keysUnique left kl) (hr : keysUnique right kr) :
    (joinTables left right kl kr).length ≤ min left.length right.length :=
  le_min (joinTables_length_le_left right kl kr hr left)
         (joinTables_length_le_right left kl kr hl right)

/-- Witness for C5 at concrete one-row tables sharing the key value. -/
theorem joinTables_length_le_min_witness :
    keysUnique [[("wd_source_id", (1 : ℤ))]] "wd_source_id" ∧
    keysUnique [[("source_id", (1 : ℤ)), ("rv", 5)]] "source_id" ∧
    (joinTables [[("wd_source_id", (1 : ℤ))]]
        [[("source_id", (1 : ℤ)), ("rv", 5)]]
        "wd_source_id" "source_id").length ≤ min 1 1 :=
  ⟨by decide, by decide,
    joinTables_length_le_min _ _ _ _ (by decide) (by decide)⟩

theorem getCol_setCol_self (r : Row) (c : String) (v : ℤ) :
    getCol (setCol r c v) c = some v := by
  simp [setCol, getCol]

theorem getCol_filter_ne (c c' : String) (hne : c' ≠ c) :
    ∀ r : Row, getCol (r.filter (fun p => p.1 != c)) c' = getCol r c' := by
  intro r
  induction r with
  | nil => rfl
  | cons p ps ih =>
    rw [List.filter_cons]
    by_cases hp : (p.1 != c) = true
    · rw [if_pos hp]
      by_cases hc : p.1 = c'
      · simp [getCol, hc]
      · simp [getCol, hc, ih]
    · rw [if_neg hp]
      have hp1 : p.1 = c := by simpa using hp
      have hpc : ¬ p.1 = c' := by rw [hp1]; exact fun hh => hne hh.symm
      simp [getCol, hpc, ih]

theorem getCol_setCol_ne (r : Row) (c c' : String) (v : ℤ) (hne : c' ≠ c) :
    getCol (setCol r c v) c' = getCol r c' := by
  have h1 : ¬ c = c' := fun hh => hne hh.symm
  simp only [setCol, getCol, if_neg h1]
  exact getCol_filter_ne c c' hne r

theorem except_bind_ok {ε α β : Type}
    {x : Except ε α} {f : α → Except ε β} {b : β}
    (h : x >>= f = .ok b) : ∃ a, x = .ok a ∧ f a = .ok b := by
  cases x with
  | ok a => exact ⟨a, rfl, h⟩
  | error e => exact absurd h (by simp [Bind.bind, Except.bind])

theorem addOpCol_ok {t : Table} {c1 c2 newc : String} {op : ℤ → ℤ → ℤ}
    {u : Table} (h : addOpCol t c1 c2 newc op = .ok u) :
    u = t.map (fun r => setCol r newc (op ((getCol r c1).getD 0) ((getCol r c2).getD 0)))
    ∧ ∀ r ∈ t, (getCol r c1).isSome = true ∧ (getCol r c2).isSome = true := by
  unfold addOpCol at h
  by_cases hc : t.all (fun r => (getCol r c1).isSome && (getCol r c2).isSome) = true
  · rw [if_pos hc] at h
    cases h
    refine ⟨rfl, ?_⟩
    intro r hr
    have := List.all_eq_true.mp hc r hr
    simpa using this
  · rw [if_neg hc] at h
    exact absurd h (by simp)

theorem writeIfGiven_ok {env : Env} {path : AttrVal} {t : Table}
    {w : List (AttrVal × Table)} (h : writeIfGiven env path t = .ok w)
    (hne : path ≠ AttrVal.pyNone) : w = [(path, t)] := by
  unfold writeIfGiven at h
  rw [if_neg hne] at h
  obtain ⟨u, h1, h2⟩ := except_bind_ok h
  simpa [pure, Except.pure] using h2.symm

theorem analyze_ok_inv {env : Env} {targets : Table} {config : Config}
    {args : Namespace} {res : AnalyzeResult}
    (h : analyze env targets config args = .ok res) :
    ∃ obspath verbose obsTable rvpath rvWrites withGravz outAttr,
      getattr args "obspath" = .ok obspath ∧
      getattr args "verbose" = .ok verbose ∧
      env.fit_rvs obspath (make_warwick_da_model ["a", "b", "g", "d"]) verbose
        = .ok obsTable ∧
      res.rv_table = obsTable.filter rvSpreadLt1 ∧
      getattr args "rv_path" = .ok rvpath ∧
      writeIfGiven env rvpath (obsTable.filter rvSpreadLt1) = .ok rvWrites ∧
      addOpCol (joinTables targets (obsTable.filter rvSpreadLt1) "source_id" "source_id")
        "rv" "ms_rv" "gravz" (fun a b => a - b) = .ok withGravz ∧
      addOpCol withGravz "e_rv" "ms_erv" "e_gravz" (fun a b => a + b) = .ok res.outfile ∧
      getattr args "outfile" = .ok outAttr ∧
      res.writes = rvWrites ++ [(outAttr, res.outfile)] := by
  unfold analyze at h
  obtain ⟨obspath, h1, h⟩ := except_bind_ok h
  obtain ⟨verbose, h2, h⟩ := except_bind_ok h
  obtain ⟨obsTable, h3, h⟩ := except_bind_ok h
  obtain ⟨rvpath, h4, h⟩ := except_bind_ok h
  obtain ⟨rvWrites, h5, h⟩ := except_bind_ok h
  obtain ⟨withGravz, h6, h⟩ := except_bind_ok h
  obtain ⟨outTable, h7, h⟩ := except_bind_ok h
  obtain ⟨outAttr, h8, h⟩ := except_bind_ok h
  obtain ⟨u, h9, h⟩ := except_bind_ok h
  have hres : res = ⟨outTable, obsTable.filter rvSpreadLt1,
      rvWrites ++ [(outAttr, outTable)]⟩ := by
    simpa [pure, Except.pure] using h.symm
  subst hres
  exact ⟨obspath, verbose, obsTable, rvpath, rvWrites, withGravz, outAttr,
    h1, h2, h3, rfl, h4, h5, h6, h7, h8, rfl⟩

/-- C1: for every row of the table `analyze` builds by joining the targets
table with the filtered RV table on `source_id`, the derived column `gravz`
equals the row's `rv` minus its `ms_rv` and `e_gravz` equals `e_rv` plus
`ms_erv`; the joined table is written to the path `args.outfile`. -/
theorem analyze_gravz_outfile {env : Env} {targets : Table} {config : Config}
    {args : Namespace} {res : AnalyzeResult} {outAttr : AttrVal}
    (h : analyze env targets config args = .ok res)
    (hout : getattr args "outfile" = .ok outAttr) :
    (∀ row ∈ res.outfile, ∃ a b ea eb,
        getCol row "rv" = some a ∧ getCol row "ms_rv" = some b ∧
        getCol row "gravz" = some (a - b) ∧
        getCol row "e_rv" = some ea ∧ getCol row "ms_erv" = some eb ∧
        getCol row "e_gravz" = some (ea + eb)) ∧
    (outAttr, res.outfile) ∈ res.writes := by
  obtain ⟨op, vb, obsTable, rvp, rvW, wG, oA,
    h1, h2, h3, h4, h5, h6, h7, h8, h9, h10⟩ := analyze_ok_inv h
  obtain ⟨hG_eq, hG_all⟩ := addOpCol_ok h7
  obtain ⟨hE_eq, hE_all⟩ := addOpCol_ok h8
  constructor
  · intro row hrow
    rw [hE_eq] at hrow
    obtain ⟨w, hw, hroweq⟩ := List.mem_map.mp hrow
    have hwmem := hw
    rw [hG_eq] at hwmem
    obtain ⟨j, hj, hweq⟩ := List.mem_map.mp hwmem
    obtain ⟨hjrv, hjms⟩ := hG_all j hj
    obtain ⟨a, ha⟩ := Option.isSome_iff_exists.mp hjrv
    obtain ⟨b, hb⟩ := Option.isSome_iff_exists.mp hjms
    obtain ⟨hwe, hwm⟩ := hE_all w hw
    obtain ⟨ea, hea⟩ := Option.isSome_iff_exists.mp hwe
    obtain ⟨eb, heb⟩ := Option.isSome_iff_exists.mp hwm
    refine ⟨a, b, ea, eb, ?_, ?_, ?_, ?_, ?_, ?_⟩
    · rw [← hroweq, getCol_setCol_ne _ _ _ _ (by decide), ← hweq,
        getCol_setCol_ne _ _ _ _ (by decide)]
      exact ha
    · rw [← hroweq, getCol_setCol_ne _ _ _ _ (by decide), ← hweq,
        getCol_setCol_ne _ _ _ _ (by decide)]
      exact hb
    · rw [← hroweq, getCol_setCol_ne _ _ _ _ (by decide), ← hweq,
        getCol_setCol_self, ha, hb]
      simp
    · rw [← hroweq, getCol_setCol_ne _ _ _ _ (by decide)]
      exact hea
    · rw [← hroweq, getCol_setCol_ne _ _ _ _ (by decide)]
      exact heb
    · rw [← hroweq, getCol_setCol_self, hea, heb]
      simp
  · have hoa : outAttr = oA := by
      have := hout.symm.trans h9
      exact Except.ok.inj this
    rw [h10, hoa]
    exact List.mem_append_right _ (List.mem_singleton.mpr rfl)

theorem rvSpreadLt1_spec {row : Row} (h : rvSpreadLt1 row = true) :
    ∃ v, getCol row "rv_spread" = some v ∧ v < 1 := by
  unfold rvSpreadLt1 at h
  cases hc : getCol row "rv_spread" with
  | none => rw [hc] at h; simp at h
  | some v =>
    rw [hc] at h
    exact ⟨v, rfl, of_decide_eq_true h⟩

/-- C9: every row of the RV table that `analyze` keeps (the table it joins
with the targets and optionally writes to `args.rv_path`) passed the
`rv_spread < 1` mask; and when `rv_path` is given, that filtered table is
among the writes. -/
theorem analyze_rv_spread_lt_one {env : Env} {targets : Table}
    {config : Config} {args : Namespace} {res : AnalyzeResult} {rvp : AttrVal}
    (h : analyze env targets config args = .ok res)
    (hrvp : getattr args "rv_path" = .ok rvp) :
    (∀ row ∈ res.rv_table, ∃ v, getCol row "rv_spread" = some v ∧ v < 1) ∧
    (rvp ≠ AttrVal.pyNone → (rvp, res.rv_table) ∈ res.writes) := by
  obtain ⟨op, vb, obsTable, rvp2, rvW, wG, oA,
    h1, h2, h3, h4, h5, h6, h7, h8, h9, h10⟩ := analyze_ok_inv h
  have hrv2 : rvp = rvp2 := Except.ok.inj (hrvp.symm.trans h5)
  constructor
  · intro row hrow
    rw [h4] at hrow
    exact rvSpreadLt1_spec (List.of_mem_filter hrow)
  · intro hne
    have hW : rvW = [(rvp2, obsTable.filter rvSpreadLt1)] :=
      writeIfGiven_ok h6 (by rw [← hrv2]; exact hne)
    rw [h10, hW, hrv2, h4]
    exact List.mem_append_left _ (List.mem_singleton.mpr rfl)

theorem getattr_parsed_mode (vals : String → AttrVal) :
    getattr (parsedNamespace vals) "mode" = .ok (vals "mode") := rfl

theorem getattr_parsed_obs_path (vals : String → AttrVal) :
    getattr (parsedNamespace vals) "obs_path"
      = .error (.attributeError "obs_path") := rfl

theorem getattr_parsed_catfile (vals : String → AttrVal) :
    getattr (parsedNamespace vals) "catfile"
      = .error (.attributeError "catfile") := rfl

theorem build_ok_inv {env : Env} {config : Config} {args : Namespace}
    {res : BuildResult} (h : build env config args = .ok res) :
    ∃ cp rp bc mr catfile,
      getSection config "catalog" = .ok cp ∧
      getSection config "radius" = .ok rp ∧
      env.build_catalog cp args = .ok bc ∧
      env.measure_radius bc.2 rp args = .ok mr ∧
      getattr args "catfile" = .ok catfile ∧
      res = ⟨bc.1,
        sortByCol (joinTables bc.1 mr.1 "wd_source_id" "source_id") "wd_phot_g_mean_mag",
        mr.2,
        [(catfile, sortByCol (joinTables bc.1 mr.1 "wd_source_id" "source_id")
            "wd_phot_g_mean_mag")]⟩ := by
  unfold build at h
  obtain ⟨cp, h1, h⟩ := except_bind_ok h
  obtain ⟨rp, h2, h⟩ := except_bind_ok h
  obtain ⟨bc, h3, h⟩ := except_bind_ok h
  obtain ⟨mr, h4, h⟩ := except_bind_ok h
  obtain ⟨catfile, h5, h⟩ := except_bind_ok h
  obtain ⟨u, h6, h⟩ := except_bind_ok h
  refine ⟨cp, rp, bc, mr, catfile, h1, h2, h3, h4, h5, ?_⟩
  simpa [pure, Except.pure] using h.symm

/-- C2: `build` passes the config's `[catalog]` section to the catalog
builder, passes the `[radius]` section together with the returned high-mass
subset to the radius measurement, joins the catalog with the radius table on
`wd_source_id` (left) and `source_id` (right), and returns the catalog, the
joined (magnitude-sorted) targets table and the engine keys. -/
theorem build_pipeline {env : Env} {config : Config} {args : Namespace}
    {cp rp : ConfigSection} {bc : Table × Table} {mr : Table × List String}
    {res : BuildResult}
    (hcp : getSection config "catalog" = .ok cp)
    (hrp : getSection config "radius" = .ok rp)
    (hbc : env.build_catalog cp args = .ok bc)
    (hmr : env.measure_radius bc.2 rp args = .ok mr)
    (h : build env config args = .ok res) :
    res.catalog = bc.1 ∧
    res.targets = sortByCol (joinTables bc.1 mr.1 "wd_source_id" "source_id")
      "wd_phot_g_mean_mag" ∧
    res.engine_keys = mr.2 := by
  obtain ⟨cp2, rp2, bc2, mr2, cf, h1, h2, h3, h4, h5, h6⟩ := build_ok_inv h
  have ecp : cp = cp2 := Except.ok.inj (hcp.symm.trans h1)
  subst ecp
  have erp : rp = rp2 := Except.ok.inj (hrp.symm.trans h2)
  subst erp
  have ebc : bc = bc2 := Except.ok.inj (hbc.symm.trans h3)
  subst ebc
  have emr : mr = mr2 := Except.ok.inj (hmr.symm.trans h4)
  subst emr
  rw [h6]
  exact ⟨rfl, rfl, rfl⟩

/-- A stub environment whose collaborators all succeed with empty data. -/
def envStub : Env :=
  ⟨fun _ _ => .ok ([], []), fun _ _ _ => .ok ([], []), fun _ _ _ => .ok [],
   fun _ => .ok [], fun _ _ => .ok (), fun _ _ _ _ _ => ⟨[], [], []⟩,
   fun _ _ _ _ => fun _ _ => [], id, id⟩

/-- A config defining the two consumed sections, both empty. -/
def configStub : Config := [("catalog", []), ("radius", [])]

/-- One-row catalog returned by the witness catalog builder. -/
def catB : Table := [[("wd_source_id", 1), ("wd_phot_g_mean_mag", 7)]]

/-- One-row radius table returned by the witness radius measurement. -/
def radB : Table := [[("source_id", 1), ("radius", 2)]]

/-- Witness environment for the build pipeline. -/
def envB : Env :=
  ⟨fun _ _ => .ok (catB, []), fun _ _ _ => .ok (radB, ["k"]),
   fun _ _ _ => .ok [], fun _ => .ok [], fun _ _ => .ok (),
   fun _ _ _ _ _ => ⟨[], [], []⟩, fun _ _ _ _ => fun _ _ => [], id, id⟩

/-- A namespace carrying the `catfile` attribute `build` writes to. -/
def argsB : Namespace := [("catfile", .str "cat.fits")]

/-- The result `build` produces in the witness environment. -/
def resB : BuildResult :=
  ⟨catB, sortByCol (joinTables catB radB "wd_source_id" "source_id") "wd_phot_g_mean_mag",
   ["k"],
   [(.str "cat.fits",
     sortByCol (joinTables catB radB "wd_source_id" "source_id") "wd_phot_g_mean_mag")]⟩

/-- Witness for C2 in a concrete environment. -/
theorem build_pipeline_witness :
    resB.catalog = catB ∧
    resB.targets = sortByCol (joinTables catB radB "wd_source_id" "source_id")
      "wd_phot_g_mean_mag" ∧
    resB.engine_keys = ["k"] :=
  build_pipeline
    (show getSection configStub "catalog" = .ok [] from rfl)
    (show getSection configStub "radius" = .ok [] from rfl)
    (show envB.build_catalog [] argsB = .ok (catB, []) from rfl)
    (show envB.measure_radius [] [] argsB = .ok (radB, ["k"]) from rfl)
    (show build envB configStub argsB = .ok resB from rfl)

/-- CLI values for a build-mode invocation. -/
def valsBuild : String → AttrVal :=
  fun d => if d = "mode" then .str "build" else .pyNone

/-- CLI values for an analyze-mode invocation. -/
def valsAnalyze : String → AttrVal :=
  fun d => if d = "mode" then .str "analyze" else .pyNone

/-- CLI values whose mode is neither 'build' nor 'analyze'. -/
def valsNeither : String → AttrVal := fun _ => .pyNone

/-- C3: the parser defines no `catfile` attribute, yet `build` writes the
joined targets table to `args.catfile`; so a build-mode CLI invocation
(config sections present, collaborators succeeding) raises AttributeError
at the write instead of writing to a parser-defined path. -/
theorem build_catfile_attribute_error :
    "catfile" ∉ parserDests ∧
    build envStub configStub (parsedNamespace valsBuild)
      = .error (.attributeError "catfile") ∧
    mainRun envStub configStub (parsedNamespace valsBuild)
      = .error (.attributeError "catfile") := by
  refine ⟨by decide, by rfl, by rfl⟩

/-- C4: in analyze mode the entry point reads `args.obs_path`, an attribute
the parser never defines (the flag is `--obspath`, attribute `obspath`), so
every analyze-mode CLI invocation raises AttributeError — whatever the
environment, so before `analyze` can run. -/
theorem main_analyze_obs_path_attribute_error (env : Env) (config : Config)
    (vals : String → AttrVal) (h : vals "mode" = AttrVal.str "analyze") :
    "obs_path" ∉ parserDests ∧
    mainRun env config (parsedNamespace vals)
      = .error (.attributeError "obs_path") := by
  refine ⟨by decide, ?_⟩
  unfold mainRun analyzeBranch
  rw [getattr_parsed_mode, h, getattr_parsed_obs_path]
  simp [Bind.bind, Except.bind, pure, Except.pure]

/-- Witness for C4 at a concrete analyze-mode invocation. -/
theorem main_analyze_obs_path_attribute_error_witness :
    "obs_path" ∉ parserDests ∧
    mainRun envStub configStub (parsedNamespace valsAnalyze)
      = .error (.attributeError "obs_path") :=
  main_analyze_obs_path_attribute_error envStub configStub valsAnalyze rfl

/-- C6: `one_model` and `co_model` run the identical computation and differ
only in the model loader's third argument ('o' versus 'ft'); whenever the
loader returns the same grid for the two configurations, the two functions
agree. -/
theorem one_model_eq_co_model (env : Env) (radarray teffarray : List ℚ)
    (lowmass midmass highmass : String)
    (h : env.load_model "ft" "ft" "o" "H" ["bp3-rp3", "G3"]
       = env.load_model "ft" "ft" "ft" "H" ["bp3-rp3", "G3"]) :
    one_model env radarray teffarray lowmass midmass highmass
      = co_model env radarray teffarray lowmass midmass highmass := by
  unfold one_model co_model
  rw [h]

/-- Witness for C6: in `envStub` the loader is constant, so the grids agree
and the two models coincide on a concrete input. -/
theorem one_model_eq_co_model_witness :
    one_model envStub [1] [2] "f" "f" "f" = co_model envStub [1] [2] "f" "f" "f" :=
  one_model_eq_co_model envStub [1] [2] "f" "f" "f" rfl

/-- C10: the `lowmass`, `midmass` and `highmass` parameters are never read
in either model function: any two assignments yield the same result. -/
theorem model_mass_params_ignored (env : Env) (radarray teffarray : List ℚ)
    (l1 m1 h1 l2 m2 h2 : String) :
    one_model env radarray teffarray l1 m1 h1
      = one_model env radarray teffarray l2 m2 h2 ∧
    co_model env radarray teffarray l1 m1 h1
      = co_model env radarray teffarray l2 m2 h2 :=
  ⟨rfl, rfl⟩

/-- C7: no step of `build`, `analyze` or the entry point handles exceptions:
when a delegated call fails — the catalog builder, the radius measurement or
the catalog write in `build`; the RV fitting in `analyze`; the targets-table
read in the analyze branch — its error value is the whole result, unchanged,
with no alternative or recovery behavior. -/
theorem delegated_errors_propagate (env : Env) (config : Config)
    (args : Namespace) (targets : Table) (e : PyError)
    (cp rp : ConfigSection) (bc : Table × Table) (mr : Table × List String)
    (obspath verbose catfile : AttrVal) :
    (getSection config "catalog" = .ok cp →
     getSection config "radius" = .ok rp →
     env.build_catalog cp args = .error e →
     build env config args = .error e) ∧
    (getSection config "catalog" = .ok cp →
     getSection config "radius" = .ok rp →
     env.build_catalog cp args = .ok bc →
     env.measure_radius bc.2 rp args = .error e →
     build env config args = .error e) ∧
    (getSection config "catalog" = .ok cp →
     getSection config "radius" = .ok rp →
     env.build_catalog cp args = .ok bc →
     env.measure_radius bc.2 rp args = .ok mr →
     getattr args "catfile" = .ok catfile →
     env.write_table catfile
       (sortByCol (joinTables bc.1 mr.1 "wd_source_id" "source_id") "wd_phot_g_mean_mag")
       = .error e →
     build env config args = .error e) ∧
    (getattr args "obspath" = .ok obspath →
     getattr args "verbose" = .ok verbose →
     env.fit_rvs obspath (make_warwick_da_model ["a", "b", "g", "d"]) verbose
       = .error e →
     analyze env targets config args = .error e) ∧
    (getattr args "mode" = .ok (AttrVal.str "analyze") →
     getattr args "obs_path" = .ok obspath →
     env.read_table obspath = .error e →
     mainRun env config args = .error e) := by
  refine ⟨?_, ?_, ?_, ?_, ?_⟩
  · intro h1 h2 h3
    unfold build
    simp [Bind.bind, Except.bind, h1, h2, h3]
  · intro h1 h2 h3 h4
    unfold build
    simp [Bind.bind, Except.bind, h1, h2, h3, h4]
  · intro h1 h2 h3 h4 h5 h6
    unfold build
    simp [Bind.bind, Except.bind, h1, h2, h3, h4, h5, h6]
  · intro h1 h2 h3
    unfold analyze
    simp [Bind.bind, Except.bind, h1, h2, h3]
  · intro h1 h2 h3
    unfold mainRun analyzeBranch
    simp [Bind.bind, Except.bind, pure, Except.pure, h1, h2, h3]

/-- `envStub` with a failing catalog builder. -/
def envFailCat : Env := { envStub with build_catalog := fun _ _ => .error (.ioError "bc") }

/-- `envStub` with a failing radius measurement. -/
def envFailRad : Env := { envStub with measure_radius := fun _ _ _ => .error (.ioError "mr") }

/-- `envStub` with failing table writes. -/
def envFailWrite : Env := { envStub with write_table := fun _ _ => .error (.ioError "wr") }

/-- `envStub` with a failing RV fitter. -/
def envFailFit : Env := { envStub with fit_rvs := fun _ _ _ => .error (.ioError "fit") }

/-- `envStub` with a failing table reader. -/
def envFailRead : Env := { envStub with read_table := fun _ => .error (.ioError "rd") }

/-- A namespace holding every attribute the script reads. -/
def argsFull : Namespace :=
  [("mode", .str "analyze"), ("obspath", .str "obs.fits"), ("verbose", .bool false),
   ("rv_path", .pyNone), ("outfile", .str "out.fits"), ("catfile", .str "cat.fits"),
   ("obs_path", .str "targets.fits")]

/-- Witness for C7: each delegated failure surfaces unchanged. -/
theorem delegated_errors_propagate_witness :
    build envFailCat configStub argsFull = .error (.ioError "bc") ∧
    build envFailRad configStub argsFull = .error (.ioError "mr") ∧
    build envFailWrite configStub argsFull = .error (.ioError "wr") ∧
    analyze envFailFit [] configStub argsFull = .error (.ioError "fit") ∧
    mainRun envFailRead configStub argsFull = .error (.ioError "rd") :=
  ⟨(delegated_errors_propagate envFailCat configStub argsFull [] (.ioError "bc")
      [] [] ([], []) ([], []) .pyNone .pyNone .pyNone).1 rfl rfl rfl,
   (delegated_errors_propagate envFailRad configStub argsFull [] (.ioError "mr")
      [] [] ([], []) ([], []) .pyNone .pyNone .pyNone).2.1 rfl rfl rfl rfl,
   (delegated_errors_propagate envFailWrite configStub argsFull [] (.ioError "wr")
      [] [] ([], []) ([], []) .pyNone .pyNone (.str "cat.fits")).2.2.1
      rfl rfl rfl rfl rfl rfl,
   (delegated_errors_propagate envFailFit configStub argsFull [] (.ioError "fit")
      [] [] ([], []) ([], []) (.str "obs.fits") (.bool false) .pyNone).2.2.2.1
      rfl rfl rfl,
   (delegated_errors_propagate envFailRead configStub argsFull [] (.ioError "rd")
      [] [] ([], []) ([], []) (.str "targets.fits") .pyNone .pyNone).2.2.2.2
      rfl rfl rfl⟩

/-- C8: the parser defines positional arguments mode (default 'build'),
path, config (default 'config.ini') and outfile, plus the flags `--obspath`,
`-v` alias `--verbose`, `--highmass-path`, `--radius-path`, `--rv-path`,
`--deredden` and `--plot-radii`; the mode attribute selects between the
build and analyze branches of the entry point. -/
theorem parser_dests_and_dispatch (env : Env) (config : Config)
    (vals : String → AttrVal) :
    parserDests = ["mode", "path", "config", "outfile", "obspath", "verbose",
      "highmass_path", "radius_path", "rv_path", "deredden", "plot_radii"] ∧
    getattr defaultNamespace "mode" = .ok (.str "build") ∧
    getattr defaultNamespace "config" = .ok (.str "config.ini") ∧
    getattr defaultNamespace "path" = .ok .pyNone ∧
    getattr defaultNamespace "outfile" = .ok .pyNone ∧
    getattr defaultNamespace "verbose" = .ok (.bool false) ∧
    getattr defaultNamespace "deredden" = .ok (.bool false) ∧
    getattr defaultNamespace "plot_radii" = .ok (.bool false) ∧
    (vals "mode" = .str "build" →
      mainRun env config (parsedNamespace vals)
        = (build env config (parsedNamespace vals)).map (fun _ => ())) ∧
    (vals "mode" = .str "analyze" →
      mainRun env config (parsedNamespace vals)
        = analyzeBranch env config (parsedNamespace vals)) ∧
    (vals "mode" ≠ .str "build" → vals "mode" ≠ .str "analyze" →
      mainRun env config (parsedNamespace vals) = .ok ()) := by
  refine ⟨by decide, rfl, rfl, rfl, rfl, rfl, rfl, rfl, ?_, ?_, ?_⟩
  · intro h
    unfold mainRun
    rw [getattr_parsed_mode, h]
    cases hb : build env config (parsedNamespace vals) with
    | ok v => simp [Bind.bind, Except.bind, Except.map, pure, Except.pure, hb]
    | error e => simp [Bind.bind, Except.bind, Except.map, pure, Except.pure, hb]
  · intro h
    unfold mainRun
    rw [getattr_parsed_mode, h]
    simp [Bind.bind, Except.bind, pure, Except.pure]
  · intro h1 h2
    unfold mainRun
    rw [getattr_parsed_mode]
    simp [Bind.bind, Except.bind, pure, Except.pure, if_neg h1, if_neg h2]

/-- Witness for C8: the dest list, and mode routing each branch concretely. -/
theorem parser_dests_and_dispatch_witness :
    parserDests = ["mode", "path", "config", "outfile", "obspath", "verbose",
      "highmass_path", "radius_path", "rv_path", "deredden", "plot_radii"] ∧
    mainRun envStub configStub (parsedNamespace valsBuild)
      = (build envStub configStub (parsedNamespace valsBuild)).map (fun _ => ()) ∧
    mainRun envStub configStub (parsedNamespace valsAnalyze)
      = analyzeBranch envStub configStub (parsedNamespace valsAnalyze) ∧
    mainRun envStub configStub (parsedNamespace valsNeither) = .ok () :=
  ⟨(parser_dests_and_dispatch envStub configStub valsBuild).1,
   (parser_dests_and_dispatch envStub configStub valsBuild).2.2.2.2.2.2.2.2.1 rfl,
   (parser_dests_and_dispatch envStub configStub valsAnalyze).2.2.2.2.2.2.2.2.2.1 rfl,
   (parser_dests_and_dispatch envStub configStub valsNeither).2.2.2.2.2.2.2.2.2.2
     (by decide) (by decide)⟩

/-- The observation row the witness RV fitter returns. -/
def rvRowA : Row := [("source_id", 1), ("rv", 10), ("e_rv", 1), ("rv_spread", 0)]

/-- Witness environment for `analyze`: the RV fitter yields one row. -/
def envA : Env := { envStub with fit_rvs := fun _ _ _ => .ok [rvRowA] }

/-- Witness targets table: one matching WD+MS binary. -/
def targetsA : Table := [[("source_id", 1), ("ms_rv", 4), ("ms_erv", 2)]]

/-- Witness namespace carrying the attributes `analyze` reads. -/
def argsA : Namespace :=
  [("obspath", .str "obs.fits"), ("verbose", .bool false),
   ("rv_path", .str "rv.fits"), ("outfile", .str "out.fits")]

/-- The single joined output row `analyze` produces in the witness run. -/
def rowA1 : Row :=
  [("e_gravz", 3), ("gravz", 6), ("source_id", 1), ("ms_rv", 4), ("ms_erv", 2),
   ("source_id", 1), ("rv", 10), ("e_rv", 1), ("rv_spread", 0)]

/-- The full result of the witness `analyze` run. -/
def resA : AnalyzeResult :=
  ⟨[rowA1], [rvRowA],
   [(.str "rv.fits", [rvRowA]), (.str "out.fits", [rowA1])]⟩

/-- Witness for C1: concrete gravz and e_gravz values and the outfile write. -/
theorem analyze_gravz_outfile_witness :
    getCol rowA1 "gravz" = some 6 ∧ getCol rowA1 "e_gravz" = some 3 ∧
    (AttrVal.str "out.fits", resA.outfile) ∈ resA.writes := by
  have h := analyze_gravz_outfile
    (show analyze envA targetsA [] argsA = .ok resA from rfl)
    (show getattr argsA "outfile" = .ok (.str "out.fits") from rfl)
  obtain ⟨a, b, ea, eb, h1, h2, h3, h4, h5, h6⟩ := h.1 rowA1 (by decide)
  have ha : a = 10 :=
    Option.some.inj (h1.symm.trans (show getCol rowA1 "rv" = some 10 from rfl))
  have hb : b = 4 :=
    Option.some.inj (h2.symm.trans (show getCol rowA1 "ms_rv" = some 4 from rfl))
  have hea : ea = 1 :=
    Option.some.inj (h4.symm.trans (show getCol rowA1 "e_rv" = some 1 from rfl))
  have heb : eb = 2 :=
    Option.some.inj (h5.symm.trans (show getCol rowA1 "ms_erv" = some 2 from rfl))
  refine ⟨?_, ?_, h.2⟩
  · rw [h3, ha, hb]; norm_num
  · rw [h6, hea, heb]; norm_num

/-- Witness for C9: the surviving RV row has rv_spread 0 < 1 and the filtered
table is written to rv.fits. -/
theorem analyze_rv_spread_lt_one_witness :
    ((0 : ℤ) < 1 ∧ getCol rvRowA "rv_spread" = some 0) ∧
    (AttrVal.str "rv.fits", resA.rv_table) ∈ resA.writes := by
  have h := analyze_rv_spread_lt_one
    (show analyze envA targetsA [] argsA = .ok resA from rfl)
    (show getattr argsA "rv_path" = .ok (.str "rv.fits") from rfl)
  obtain ⟨v, hv, hlt⟩ := h.1 rvRowA (by decide)
  have hv0 : v = 0 :=
    Option.some.inj (hv.symm.trans (show getCol rvRowA "rv_spread" = some 0 from rfl))
  exact ⟨⟨hv0 ▸ hlt, hv0 ▸ hv⟩, h.2 (by decide)⟩
